import Mathlib

/-!
Shallow embedding of the Terra Tranquil backend (src/main.py, src/schemas.py).

The document store is MongoDB accessed through pymongo; collections are
modelled as association lists of (store-assigned id, typed record).  Store ids
(Mongo ObjectIds) are modelled as naturals whose string form is the decimal
numeral, so `to_obj_id` succeeds exactly on decimal numerals.  Wire documents
(Python dicts) are modelled as association lists from field names to values,
so that presence or absence of a field (for example `_id` versus `id`) is
expressible.
-/

/-- A JSON-ish value appearing in a wire document or stored document. -/
inductive Val where
  | str : String → Val
  | int : Int → Val
  | bool : Bool → Val
  | boolList : List Bool → Val
  | oid : Nat → Val
  | null : Val
deriving DecidableEq, Repr

/-- A wire document: an ordered association list of field names to values,
modelling a Python dict. -/
abbrev Doc := List (String × Val)

/-- Python str() of a value, as used on a popped Mongo key. -/
def valStr : Val → String
  | .str s => s
  | .int n => toString n
  | .bool b => toString b
  | .boolList _ => "[...]"
  | .oid i => toString i
  | .null => "None"

/-- model_dump of an optional string field: None becomes null. -/
def optStr : Option String → Val
  | some s => .str s
  | none => .null

/-- Remove a key from a document (Python dict.pop on a present key). -/
def popKey (d : Doc) (k : String) : Doc :=
  d.filter (fun kv => !(kv.1 == k))

/-- Set a key in a document (Python dict assignment: overwrite in place if the
key exists, otherwise append at the end in insertion order). -/
def setKey (d : Doc) (k : String) (v : Val) : Doc :=
  match d.any (fun kv => kv.1 == k) with
  | true => d.map (fun kv => match kv.1 == k with | true => (k, v) | false => kv)
  | false => d ++ [(k, v)]

/-- schemas.py Business (pydantic model; validation is `businessValid`). -/
structure Business where
  name : String
  category : String
  location : String
  website : Option String
  description : Option String
  eco_checks : List Bool
  logo_url : Option String
  eco_score : Int
  hero_image : Option String
deriving DecidableEq, Repr

/-- Pydantic field validation for Business: eco_score has ge=0, le=100. -/
def businessValid (b : Business) : Bool :=
  decide (0 ≤ b.eco_score) && decide (b.eco_score ≤ 100)

/-- schemas.py Visit. -/
structure Visit where
  user_id : String
  business_id : String
  business_name : String
  category : String
  location : String
  eco_points : Int
deriving DecidableEq, Repr

/-- schemas.py Impact. -/
structure Impact where
  user_id : String
  username : String
  visits : Int
  eco_points : Int
  community_impact : Int
  terra_level : Int
deriving DecidableEq, Repr

/-- model_dump of a Business (field order as declared in schemas.py). -/
def businessDump (b : Business) : Doc :=
  [("name", .str b.name), ("category", .str b.category),
   ("location", .str b.location), ("website", optStr b.website),
   ("description", optStr b.description), ("eco_checks", .boolList b.eco_checks),
   ("logo_url", optStr b.logo_url), ("eco_score", .int b.eco_score),
   ("hero_image", optStr b.hero_image)]

/-- model_dump of a Visit. -/
def visitDump (v : Visit) : Doc :=
  [("user_id", .str v.user_id), ("business_id", .str v.business_id),
   ("business_name", .str v.business_name), ("category", .str v.category),
   ("location", .str v.location), ("eco_points", .int v.eco_points)]

/-- model_dump of an Impact. -/
def impactDump (m : Impact) : Doc :=
  [("user_id", .str m.user_id), ("username", .str m.username),
   ("visits", .int m.visits), ("eco_points", .int m.eco_points),
   ("community_impact", .int m.community_impact),
   ("terra_level", .int m.terra_level)]

/-- A Business as returned by a Mongo find: the stored fields with the native
key `_id` in front. -/
def businessDocOf (i : Nat) (b : Business) : Doc :=
  ("_id", .oid i) :: businessDump b

/-- A Visit as returned by a Mongo find. -/
def visitDocOf (i : Nat) (v : Visit) : Doc :=
  ("_id", .oid i) :: visitDump v

/-- The state of the document store: the three collections touched by the
endpoints, each an association list of (store id, record), plus the next
fresh store id. -/
structure Store where
  businesses : List (Nat × Business)
  visits : List (Nat × Visit)
  impacts : List (Nat × Impact)
  nextId : Nat
deriving DecidableEq, Repr

/-- Well-formedness of a store: every assigned id is below nextId, so the ids
in each collection are distinct from any freshly assigned id.  This is the
uniqueness guarantee Mongo gives for ObjectIds. -/
def Store.WF (s : Store) : Bool :=
  s.businesses.all (fun q => decide (q.1 < s.nextId)) &&
  s.visits.all (fun q => decide (q.1 < s.nextId)) &&
  s.impacts.all (fun q => decide (q.1 < s.nextId))

/-- Modelled from the spec: `create_document` of the Document Store Adapter
(database.py, which is not under src/) inserts the record into the named
collection under a fresh store-assigned id and returns that id.  Specialised
to the business collection. -/
def create_business (s : Store) (b : Business) : Nat × Store :=
  (s.nextId,
   { s with businesses := s.businesses ++ [(s.nextId, b)], nextId := s.nextId + 1 })

/-- Modelled from the spec: `create_document` specialised to the visit
collection (database.py, which is not under src/). -/
def create_visit (s : Store) (v : Visit) : Nat × Store :=
  (s.nextId,
   { s with visits := s.visits ++ [(s.nextId, v)], nextId := s.nextId + 1 })

/-- Modelled from the spec: `create_document` specialised to the impact
collection (database.py, which is not under src/). -/
def create_impact (s : Store) (m : Impact) : Nat × Store :=
  (s.nextId,
   { s with impacts := s.impacts ++ [(s.nextId, m)], nextId := s.nextId + 1 })

/-- An HTTP handler outcome: a 200 payload, or an HTTPException with status
code and detail. -/
inductive Resp (α : Type) where
  | ok : α → Resp α
  | err : Nat → String → Resp α
deriving DecidableEq, Repr

/-- Accumulating decimal parser over a character list; none on the empty
string or any non-digit character. -/
def parseNatDigits : List Char → Option Nat → Option Nat
  | [], acc => acc
  | c :: cs, acc =>
    match c.isDigit with
    | true => parseNatDigits cs (some ((acc.getD 0) * 10 + (c.toNat - 48)))
    | false => none

/-- main.py to_obj_id: parse an ObjectId, HTTP 400 on failure at use sites.
ObjectIds are modelled as naturals; a string parses exactly when it is a
decimal numeral. -/
def to_obj_id (id_str : String) : Option Nat :=
  parseNatDigits id_str.toList none

/-- main.py business_doc_to_response: doc["id"] = str(doc.pop("_id")). -/
def doc_with_id (d : Doc) : Doc :=
  match d.lookup "_id" with
  | some v => setKey (popKey d "_id") "id" (.str (valStr v))
  | none => d

/-- Alias used by the business endpoints (source keeps this name). -/
def business_doc_to_response (d : Doc) : Doc :=
  doc_with_id d

/-- main.py BusinessCreate request schema: note it has no eco_score field. -/
structure BusinessCreate where
  name : String
  category : String
  location : String
  website : Option String
  description : Option String
  eco_checks : List Bool
  logo_url : Option String
deriving DecidableEq, Repr

/-- main.py VisitCreate request schema. -/
structure VisitCreate where
  user_id : String
  username : String
  business_id : String
deriving DecidableEq, Repr

/-- Python `username or "Guest"`: None and the empty string both fall back. -/
def orDefault (u : Option String) (d : String) : String :=
  match u with
  | none => d
  | some s => match s == "" with | true => d | false => s

/-- Number of true entries of the eco checklist:
sum(1 for c in checks if c). -/
def countTrue (l : List Bool) : Nat :=
  (l.filter (fun c => c)).length

/-- The Mongo filter {"user_id": uid} on the impact collection. -/
def impMatch (uid : String) (q : Nat × Impact) : Bool :=
  q.2.user_id == uid

/-- Mongo update_one on the impact collection: rewrite the first document
matching {"user_id": uid} with f, leave the rest unchanged. -/
def updateFirstImpact (l : List (Nat × Impact)) (uid : String)
    (f : Impact → Impact) : List (Nat × Impact) :=
  match l with
  | [] => []
  | (i, d) :: rest =>
    match d.user_id == uid with
    | true => (i, f d) :: rest
    | false => (i, d) :: updateFirstImpact rest uid f

/-- main.py log_visit lines 237-249: db.impact.update_one({"user_id": uid},
{"$setOnInsert": {user_id, username}, "$inc": {visits, eco_points,
community_impact}}, upsert=True).  On the insert branch Mongo leaves
terra_level absent; it is written by the $set that follows before any read,
so it is initialised to 0 here. -/
def impact_upsert_inc (s : Store) (uid username : String) (pts : Int) : Store :=
  match s.impacts.find? (impMatch uid) with
  | some _ =>
    { s with impacts := updateFirstImpact s.impacts uid (fun m =>
        { m with visits := m.visits + 1, eco_points := m.eco_points + pts,
                 community_impact := m.community_impact + 1 }) }
  | none =>
    { s with
      impacts := s.impacts ++
        [(s.nextId,
          { user_id := uid, username := username, visits := 1,
            eco_points := pts, community_impact := 1, terra_level := 0 })],
      nextId := s.nextId + 1 }

/-- main.py log_visit lines 250-259: the tier table applied to a visits
count (the if/elif chain computing `level`). -/
def deriveLevel (visits : Int) : Int :=
  if visits ≥ 20 then 3
  else if visits ≥ 10 then 2
  else if visits ≥ 3 then 1
  else 0

/-- main.py log_visit lines 250-263: re-read the impact record, compute the
level from its visits count, $set terra_level, re-read and return. -/
def terra_finalize (s2 : Store) (uid : String) : Resp Doc × Store :=
  match s2.impacts.find? (impMatch uid) with
  | none => (.err 500 "Internal Server Error", s2)
  | some (_, imp) =>
    let level := deriveLevel imp.visits
    let s3 : Store :=
      { s2 with impacts := updateFirstImpact s2.impacts uid (fun m =>
          { m with terra_level := level }) }
    match s3.impacts.find? (impMatch uid) with
    | none => (.err 500 "Internal Server Error", s3)
    | some (_, impFinal) => (.ok (impactDump impFinal), s3)

/-- main.py log_visit lines 228-263, after the business was resolved:
persist the visit, upsert the counters, recompute terra_level, return the
refreshed impact document (with _id popped). -/
def log_visit_apply (s : Store) (p : VisitCreate) (bdoc : Business) :
    Resp Doc × Store :=
  let visit : Visit :=
    { user_id := p.user_id, business_id := p.business_id,
      business_name := bdoc.name, category := bdoc.category,
      location := bdoc.location, eco_points := 10 }
  let s1 := (create_visit s visit).2
  let s2 := impact_upsert_inc s1 p.user_id p.username visit.eco_points
  terra_finalize s2 p.user_id

/-- The POST /api/visits response wraps the impact document: {"impact": imp}. -/
structure ImpactEnvelope where
  impact : Doc
deriving DecidableEq, Repr

/-- main.py log_visit (POST /api/visits). -/
def log_visit (db : Option Store) (p : VisitCreate) :
    Resp ImpactEnvelope × Option Store :=
  match db with
  | none => (.err 500 "Database not available", none)
  | some s =>
    match to_obj_id p.business_id with
    | none => (.err 400 "Invalid id", some s)
    | some oidv =>
      match s.businesses.find? (fun q => q.1 == oidv) with
      | none => (.err 404 "Business not found", some s)
      | some (_, bdoc) =>
        match log_visit_apply s p bdoc with
        | (.ok d, s3) => (.ok ⟨d⟩, some s3)
        | (.err c msg, s3) => (.err c msg, some s3)

/-- main.py get_impact (GET /api/users/{user_id}/impact). -/
def get_impact (db : Option Store) (user_id : String)
    (username : Option String) : Resp Doc × Option Store :=
  match db with
  | none =>
    (.ok (impactDump
      { user_id := user_id, username := orDefault username "Guest",
        visits := 0, eco_points := 0, community_impact := 0, terra_level := 0 }),
     none)
  | some s =>
    match s.impacts.find? (impMatch user_id) with
    | none =>
      let impact : Impact :=
        { user_id := user_id, username := orDefault username "Guest",
          visits := 0, eco_points := 0, community_impact := 0, terra_level := 0 }
      (.ok (impactDump impact), some (create_impact s impact).2)
    | some (_, doc) => (.ok (impactDump doc), some s)

/-- main.py get_user_visits (GET /api/users/{user_id}/visits): filter by
user_id, sort on created_at (a field no Visit document carries, so the
store-native order is preserved), cap at 100, attach the id field. -/
def get_user_visits (db : Option Store) (user_id : String) : List Doc :=
  match db with
  | none => []
  | some s =>
    ((s.visits.filter (fun q => q.2.user_id == user_id)).take 100).map
      (fun q => doc_with_id (visitDocOf q.1 q.2))

/-- Case-insensitive substring test, modelling the {"$regex": search,
"$options": "i"} filter on a plain search string. -/
def containsCI (hay pat : String) : Bool :=
  let h := hay.toLower.toList
  let p := pat.toLower.toList
  (List.range (h.length + 1)).any (fun i => (h.drop i).take p.length == p)

/-- main.py list_businesses (GET /api/businesses). -/
def list_businesses (db : Option Store) (search category : Option String) :
    List Doc :=
  match db with
  | none => []
  | some s =>
    let afterCat : List (Nat × Business) :=
      match category with
      | some c =>
        match (!(c == "")) && (!(c.toLower == "all")) with
        | true => s.businesses.filter (fun q => q.2.category == c)
        | false => s.businesses
      | none => s.businesses
    let afterSearch : List (Nat × Business) :=
      match search with
      | some t =>
        match !(t == "") with
        | true => afterCat.filter (fun q => containsCI q.2.name t)
        | false => afterCat
      | none => afterCat
    (afterSearch.take 100).map
      (fun q => business_doc_to_response (businessDocOf q.1 q.2))

/-- main.py get_business (GET /api/businesses/{business_id}). -/
def get_business (db : Option Store) (business_id : String) : Resp Doc :=
  match db with
  | none => .err 500 "Database not available"
  | some s =>
    match to_obj_id business_id with
    | none => .err 400 "Invalid id"
    | some oidv =>
      match s.businesses.find? (fun q => q.1 == oidv) with
      | none => .err 404 "Business not found"
      | some (i, d) => .ok (business_doc_to_response (businessDocOf i d))

/-- main.py register_business (POST /api/businesses): overwrite the score
from the checklist when one is supplied, construct the pydantic record (its
range validation failing surfaces as an unhandled 500), persist, re-read by
the assigned id, respond with the id field attached.  `regData` is the
BusinessSchema(**data) record: the payload fields with eco_score overwritten
from the checklist when one is supplied (80 being the schema default when the
key is absent) and hero_image left at its default. -/
def regData (p : BusinessCreate) : Business :=
  { name := p.name, category := p.category, location := p.location,
    website := p.website, description := p.description,
    eco_checks := p.eco_checks, logo_url := p.logo_url,
    eco_score :=
      match p.eco_checks.isEmpty with
      | true => 80
      | false => 60 + 8 * (countTrue p.eco_checks : Int),
    hero_image := none }

def register_business (s : Store) (p : BusinessCreate) : Resp Doc × Store :=
  match businessValid (regData p) with
  | false => (.err 500 "Internal Server Error", s)
  | true =>
    let r := create_business s (regData p)
    match r.2.businesses.find? (fun q => q.1 == r.1) with
    | none => (.err 500 "Internal Server Error", r.2)
    | some (i, d) => (.ok (business_doc_to_response (businessDocOf i d)), r.2)

/-! ## Shared concrete fixtures -/

/-- A valid business, stored under id 0. -/
def demoBusiness : Business :=
  { name := "Leaf and Latte", category := "Cafes", location := "Downtown",
    website := none, description := none,
    eco_checks := [true, true, true, true, false], logo_url := none,
    eco_score := 92, hero_image := none }

/-- A store holding one business and no impact or visit records. -/
def demoStore : Store :=
  { businesses := [(0, demoBusiness)], visits := [], impacts := [], nextId := 1 }

/-- logVisit payload for user U as alice against business 0. -/
def demoVisit : VisitCreate :=
  { user_id := "U", username := "alice", business_id := "0" }

/-- logVisit payload for user U as bob against business 0. -/
def demoVisitBob : VisitCreate :=
  { user_id := "U", username := "bob", business_id := "0" }

/-- The store after one demo visit. -/
def s1demo : Store :=
  match (log_visit (some demoStore) demoVisit).2 with
  | some s => s
  | none => demoStore

/-- The store after the alice visit followed by the bob visit. -/
def s2demo : Store :=
  match (log_visit (some s1demo) demoVisitBob).2 with
  | some s => s
  | none => demoStore

/-- A store with nothing in it. -/
def emptyStore : Store :=
  { businesses := [], visits := [], impacts := [], nextId := 0 }

/-- A registration payload whose checklist has six true entries. -/
def sixTrueChecks : BusinessCreate :=
  { name := "Shop", category := "Cat", location := "Loc", website := none,
    description := none, eco_checks := [true, true, true, true, true, true],
    logo_url := none }

/-- A registration payload with four true entries out of five. -/
def demoBusinessCreate : BusinessCreate :=
  { name := "New Shop", category := "Cat", location := "Loc", website := none,
    description := none, eco_checks := [true, true, true, true, false],
    logo_url := none }

/-- A registration payload with an empty checklist. -/
def emptyChecksCreate : BusinessCreate :=
  { name := "Plain Shop", category := "Cat", location := "Loc", website := none,
    description := none, eco_checks := [], logo_url := none }

/-- An operation of the impact-aggregation workflow, for stating trace
invariants over the two endpoints that create or modify Impact records. -/
inductive Op where
  | logVisit : VisitCreate → Op
  | getImpact : String → Option String → Op
deriving DecidableEq, Repr

/-- Run one workflow operation against an available store and keep the
resulting store (both handlers return an available store when given one). -/
def runOp (s : Store) (o : Op) : Store :=
  match o with
  | .logVisit p =>
    match (log_visit (some s) p).2 with
    | some s2 => s2
    | none => s
  | .getImpact u n =>
    match (get_impact (some s) u n).2 with
    | some s2 => s2
    | none => s

/-- The per-record invariant of claim C9. -/
def impactOk (q : Nat × Impact) : Bool :=
  q.2.community_impact == q.2.visits

/-- Every Impact record of the store has community_impact = visits. -/
def impInv (s : Store) : Bool :=
  s.impacts.all impactOk

/-! ## Helper lemmas about the store operations -/

theorem find_append_of_none {α : Type} (l₁ l₂ : List α) (p : α → Bool)
    (h : l₁.find? p = none) : (l₁ ++ l₂).find? p = l₂.find? p := by
  induction l₁ with
  | nil => rfl
  | cons a t ih =>
    cases hp : p a with
    | true => rw [List.find?_cons_of_pos _ hp] at h; exact absurd h (by simp)
    | false =>
      rw [List.find?_cons_of_neg _ (by simp [hp])] at h
      rw [List.cons_append, List.find?_cons_of_neg _ (by simp [hp])]
      exact ih h

theorem find_updateFirstImpact (l : List (Nat × Impact)) (uid : String)
    (f : Impact → Impact) (hf : ∀ m : Impact, (f m).user_id = m.user_id) :
    ∀ (i : Nat) (m : Impact), l.find? (impMatch uid) = some (i, m) →
      (updateFirstImpact l uid f).find? (impMatch uid) = some (i, f m) := by
  induction l with
  | nil => intro i m h; simp [List.find?] at h
  | cons a t ih =>
    intro i m h
    rcases a with ⟨j, d⟩
    cases hd : d.user_id == uid with
    | true =>
      rw [List.find?_cons_of_pos _ (show impMatch uid (j, d) = true from hd)] at h
      have hfirst : (updateFirstImpact ((j, d) :: t) uid f).find? (impMatch uid)
          = some (j, f d) := by
        simp only [updateFirstImpact, hd]
        apply List.find?_cons_of_pos
        show impMatch uid (j, f d) = true
        simp only [impMatch]
        rw [hf d]
        exact hd
      rw [hfirst]
      injection h with h1
      rw [show i = j from (congrArg Prod.fst h1).symm,
          show m = d from (congrArg Prod.snd h1).symm]
    | false =>
      rw [List.find?_cons_of_neg _ (by simp [impMatch, hd])] at h
      simp only [updateFirstImpact, hd]
      rw [List.find?_cons_of_neg _ (by simp [impMatch, hd])]
      exact ih i m h

theorem all_updateFirstImpact (l : List (Nat × Impact)) (uid : String)
    (f : Impact → Impact) (q : Nat × Impact → Bool) (hl : l.all q = true)
    (hf : ∀ (i : Nat) (d : Impact), q (i, d) = true → q (i, f d) = true) :
    (updateFirstImpact l uid f).all q = true := by
  induction l with
  | nil => exact rfl
  | cons a t ih =>
    rcases a with ⟨i, d⟩
    rw [List.all_cons, Bool.and_eq_true] at hl
    cases hd : d.user_id == uid with
    | true =>
      simp only [updateFirstImpact, hd, List.all_cons, Bool.and_eq_true]
      exact ⟨hf i d hl.1, hl.2⟩
    | false =>
      simp only [updateFirstImpact, hd, List.all_cons, Bool.and_eq_true]
      exact ⟨hl.1, ih hl.2⟩

theorem impact_upsert_inc_found (s : Store) (uid un : String) (pts : Int)
    (i : Nat) (m : Impact) (h : s.impacts.find? (impMatch uid) = some (i, m)) :
    impact_upsert_inc s uid un pts =
      { s with impacts := updateFirstImpact s.impacts uid (fun d =>
          { d with visits := d.visits + 1, eco_points := d.eco_points + pts,
                   community_impact := d.community_impact + 1 }) } := by
  unfold impact_upsert_inc; rw [h]

theorem impact_upsert_inc_new (s : Store) (uid un : String) (pts : Int)
    (h : s.impacts.find? (impMatch uid) = none) :
    impact_upsert_inc s uid un pts =
      { s with
        impacts := s.impacts ++
          [(s.nextId,
            { user_id := uid, username := un, visits := 1, eco_points := pts,
              community_impact := 1, terra_level := 0 })],
        nextId := s.nextId + 1 } := by
  unfold impact_upsert_inc; rw [h]

theorem find_impact_upsert_inc_found (s : Store) (uid un : String) (pts : Int)
    (i : Nat) (m : Impact) (h : s.impacts.find? (impMatch uid) = some (i, m)) :
    (impact_upsert_inc s uid un pts).impacts.find? (impMatch uid) =
      some (i, { m with visits := m.visits + 1, eco_points := m.eco_points + pts,
                        community_impact := m.community_impact + 1 }) := by
  rw [impact_upsert_inc_found s uid un pts i m h]
  exact find_updateFirstImpact s.impacts uid
    (fun d => { d with visits := d.visits + 1, eco_points := d.eco_points + pts,
                       community_impact := d.community_impact + 1 })
    (fun d => rfl) i m h

theorem find_impact_upsert_inc_new (s : Store) (uid un : String) (pts : Int)
    (h : s.impacts.find? (impMatch uid) = none) :
    (impact_upsert_inc s uid un pts).impacts.find? (impMatch uid) =
      some (s.nextId,
        { user_id := uid, username := un, visits := 1, eco_points := pts,
          community_impact := 1, terra_level := 0 }) := by
  rw [impact_upsert_inc_new s uid un pts h]
  show (s.impacts ++ [_]).find? (impMatch uid) = _
  rw [find_append_of_none _ _ _ h]
  exact List.find?_cons_of_pos _ (by simp [impMatch])

theorem terra_finalize_of_find (s2 : Store) (uid : String) (i : Nat)
    (imp : Impact) (h : s2.impacts.find? (impMatch uid) = some (i, imp)) :
    terra_finalize s2 uid =
      (.ok (impactDump { imp with terra_level := deriveLevel imp.visits }),
       { s2 with impacts := updateFirstImpact s2.impacts uid (fun m =>
           { m with terra_level := deriveLevel imp.visits }) }) ∧
    ({ s2 with impacts := updateFirstImpact s2.impacts uid (fun m =>
         { m with terra_level := deriveLevel imp.visits }) } : Store).impacts.find?
        (impMatch uid) = some (i, { imp with terra_level := deriveLevel imp.visits }) := by
  have h2 := find_updateFirstImpact s2.impacts uid
    (fun m => { m with terra_level := deriveLevel imp.visits }) (fun m => rfl) i imp h
  constructor
  · unfold terra_finalize
    rw [h]
    simp only []
    rw [h2]
  · exact h2

theorem log_visit_apply_found (s : Store) (p : VisitCreate) (b : Business)
    (i : Nat) (m : Impact)
    (h : s.impacts.find? (impMatch p.user_id) = some (i, m)) :
    ∃ sfin : Store,
      log_visit_apply s p b =
        (.ok (impactDump
          { user_id := m.user_id, username := m.username, visits := m.visits + 1,
            eco_points := m.eco_points + 10,
            community_impact := m.community_impact + 1,
            terra_level := deriveLevel (m.visits + 1) }), sfin) ∧
      sfin.impacts.find? (impMatch p.user_id) =
        some (i,
          { user_id := m.user_id, username := m.username, visits := m.visits + 1,
            eco_points := m.eco_points + 10,
            community_impact := m.community_impact + 1,
            terra_level := deriveLevel (m.visits + 1) }) := by
  have h2 := find_impact_upsert_inc_found
    ((create_visit s
      { user_id := p.user_id, business_id := p.business_id,
        business_name := b.name, category := b.category,
        location := b.location, eco_points := 10 }).2)
    p.user_id p.username 10 i m h
  have h3 := terra_finalize_of_find _ p.user_id i _ h2
  exact ⟨_, h3.1, h3.2⟩

theorem log_visit_apply_new (s : Store) (p : VisitCreate) (b : Business)
    (h : s.impacts.find? (impMatch p.user_id) = none) :
    ∃ (sfin : Store) (i2 : Nat),
      log_visit_apply s p b =
        (.ok (impactDump
          { user_id := p.user_id, username := p.username, visits := 1,
            eco_points := 10, community_impact := 1, terra_level := 0 }), sfin) ∧
      sfin.impacts.find? (impMatch p.user_id) =
        some (i2,
          { user_id := p.user_id, username := p.username, visits := 1,
            eco_points := 10, community_impact := 1, terra_level := 0 }) := by
  have h2 := find_impact_upsert_inc_new
    ((create_visit s
      { user_id := p.user_id, business_id := p.business_id,
        business_name := b.name, category := b.category,
        location := b.location, eco_points := 10 }).2)
    p.user_id p.username 10 h
  have h3 := terra_finalize_of_find _ p.user_id _ _ h2
  exact ⟨_, _, h3.1, h3.2⟩

theorem log_visit_some_inv (s : Store) (p : VisitCreate)
    (r : Resp ImpactEnvelope) (db2 : Option Store)
    (h : log_visit (some s) p = (r, db2)) :
    (r = .err 400 "Invalid id" ∧ db2 = some s) ∨
    (r = .err 404 "Business not found" ∧ db2 = some s) ∨
    (∃ oidv i b, to_obj_id p.business_id = some oidv ∧
      s.businesses.find? (fun q => q.1 == oidv) = some (i, b) ∧
      ((∃ d s3, log_visit_apply s p b = (.ok d, s3) ∧
          r = .ok ⟨d⟩ ∧ db2 = some s3) ∨
       (∃ c msg s3, log_visit_apply s p b = (.err c msg, s3) ∧
          r = .err c msg ∧ db2 = some s3))) := by
  simp only [log_visit] at h
  rcases hoid : to_obj_id p.business_id with _ | oidv
  · simp only [hoid] at h
    injection h with h1 h2
    exact Or.inl ⟨h1.symm, h2.symm⟩
  · simp only [hoid] at h
    rcases hb : s.businesses.find? (fun q => q.1 == oidv) with _ | ⟨i, b⟩
    · simp only [hb] at h
      injection h with h1 h2
      exact Or.inr (Or.inl ⟨h1.symm, h2.symm⟩)
    · simp only [hb] at h
      rcases happ : log_visit_apply s p b with ⟨ra, s3⟩
      cases ra with
      | ok d =>
        simp only [happ] at h
        injection h with h1 h2
        exact Or.inr (Or.inr ⟨oidv, i, b, rfl, hb,
          Or.inl ⟨d, s3, happ, h1.symm, h2.symm⟩⟩)
      | err c msg =>
        simp only [happ] at h
        injection h with h1 h2
        exact Or.inr (Or.inr ⟨oidv, i, b, rfl, hb,
          Or.inr ⟨c, msg, s3, happ, h1.symm, h2.symm⟩⟩)

theorem log_visit_ok_inv (s : Store) (p : VisitCreate)
    (env : ImpactEnvelope) (s2 : Store)
    (h : log_visit (some s) p = (.ok env, some s2)) :
    ∃ oidv i b, to_obj_id p.business_id = some oidv ∧
      s.businesses.find? (fun q => q.1 == oidv) = some (i, b) ∧
      log_visit_apply s p b = (.ok env.impact, s2) := by
  rcases log_visit_some_inv s p (.ok env) (some s2) h with
    ⟨h1, _⟩ | ⟨h1, _⟩ | ⟨oidv, i, b, hoid, hb, hrest⟩
  · exact absurd h1 (by simp)
  · exact absurd h1 (by simp)
  rcases hrest with ⟨d, s3, happ, hr, hdb⟩ | ⟨c, msg, s3, _, hr, _⟩
  · refine ⟨oidv, i, b, hoid, hb, ?_⟩
    injection hr with hr1
    injection hdb with hdb1
    rw [hr1, hdb1]
    exact happ
  · exact absurd hr (by simp)

theorem business_response_shape (i : Nat) (b : Business) :
    business_doc_to_response (businessDocOf i b)
      = businessDump b ++ [("id", .str (toString i))] := rfl

theorem business_response_eco_score (i : Nat) (b : Business) :
    (business_doc_to_response (businessDocOf i b)).lookup "eco_score"
      = some (.int b.eco_score) := rfl

theorem business_response_id (i : Nat) (b : Business) :
    (business_doc_to_response (businessDocOf i b)).lookup "id"
      = some (.str (toString i)) := rfl

theorem business_response_no_native_key (i : Nat) (b : Business) :
    (business_doc_to_response (businessDocOf i b)).lookup "_id" = none := rfl

theorem visit_response_id (i : Nat) (v : Visit) :
    (doc_with_id (visitDocOf i v)).lookup "id" = some (.str (toString i)) := rfl

theorem visit_response_no_native_key (i : Nat) (v : Visit) :
    (doc_with_id (visitDocOf i v)).lookup "_id" = none := rfl

theorem impactDump_no_id (m : Impact) :
    (impactDump m).lookup "id" = none := rfl

theorem impactDump_no_native_key (m : Impact) :
    (impactDump m).lookup "_id" = none := rfl

theorem get_impact_ok_shape (db : Option Store) (uid : String)
    (un : Option String) (r : Doc) (db2 : Option Store)
    (h : get_impact db uid un = (.ok r, db2)) : ∃ m : Impact, r = impactDump m := by
  cases db with
  | none =>
    injection h with h1 _
    injection h1 with h2
    exact ⟨_, h2.symm⟩
  | some s =>
    simp only [get_impact] at h
    rcases hf : s.impacts.find? (impMatch uid) with _ | ⟨i, m⟩
    · simp only [hf] at h
      injection h with h1 _
      injection h1 with h2
      exact ⟨_, h2.symm⟩
    · simp only [hf] at h
      injection h with h1 _
      injection h1 with h2
      exact ⟨m, h2.symm⟩

theorem terra_finalize_ok_shape (s2 : Store) (uid : String) (d : Doc)
    (s3 : Store) (h : terra_finalize s2 uid = (.ok d, s3)) :
    ∃ m : Impact, d = impactDump m := by
  unfold terra_finalize at h
  split at h
  · injection h with h1 _
    injection h1
  · simp only [] at h
    split at h
    · injection h with h1 _
      injection h1
    · injection h with h1 _
      injection h1 with h2
      exact ⟨_, h2.symm⟩

theorem log_visit_apply_ok_shape (s : Store) (p : VisitCreate) (b : Business)
    (d : Doc) (s3 : Store) (h : log_visit_apply s p b = (.ok d, s3)) :
    ∃ m : Impact, d = impactDump m :=
  terra_finalize_ok_shape _ _ d s3 h

theorem find_none_of_wf_businesses (s : Store)
    (h : s.businesses.all (fun q => decide (q.1 < s.nextId)) = true) :
    s.businesses.find? (fun q => q.1 == s.nextId) = none := by
  rw [List.find?_eq_none]
  intro q hq
  have h2 := List.all_eq_true.mp h q hq
  simp only [decide_eq_true_eq] at h2
  simp only [beq_iff_eq]
  omega

theorem register_business_eq (s : Store) (p : BusinessCreate)
    (hval : businessValid (regData p) = true)
    (hfind : s.businesses.find? (fun q => q.1 == s.nextId) = none) :
    register_business s p =
      (.ok (business_doc_to_response (businessDocOf s.nextId (regData p))),
       { s with businesses := s.businesses ++ [(s.nextId, regData p)],
                nextId := s.nextId + 1 }) := by
  have hfind2 : (s.businesses ++ [(s.nextId, regData p)]).find?
      (fun q => q.1 == s.nextId) = some (s.nextId, regData p) := by
    rw [find_append_of_none _ _ _ hfind]
    exact List.find?_cons_of_pos _ (by simp)
  simp only [register_business, hval, create_business]
  rw [hfind2]

theorem impInv_impact_upsert_inc (s : Store) (uid un : String) (pts : Int)
    (h : impInv s = true) : impInv (impact_upsert_inc s uid un pts) = true := by
  rcases hf : s.impacts.find? (impMatch uid) with _ | ⟨i, m⟩
  · rw [impact_upsert_inc_new s uid un pts hf]
    unfold impInv at h ⊢
    simp only [List.all_append, Bool.and_eq_true]
    refine ⟨h, ?_⟩
    simp [impactOk]
  · rw [impact_upsert_inc_found s uid un pts i m hf]
    unfold impInv at h ⊢
    apply all_updateFirstImpact _ _ _ _ h
    intro j d hd
    simp only [impactOk, beq_iff_eq] at hd ⊢
    omega

theorem terra_finalize_snd (s2 : Store) (uid : String) :
    (terra_finalize s2 uid).2 = s2 ∨
    ∃ lvl : Int, (terra_finalize s2 uid).2 =
      { s2 with impacts := updateFirstImpact s2.impacts uid (fun m =>
          { m with terra_level := lvl }) } := by
  unfold terra_finalize
  split
  · exact Or.inl rfl
  · simp only []
    split
    · exact Or.inr ⟨_, rfl⟩
    · exact Or.inr ⟨_, rfl⟩

theorem impInv_terra_finalize (s2 : Store) (uid : String)
    (h : impInv s2 = true) : impInv (terra_finalize s2 uid).2 = true := by
  rcases terra_finalize_snd s2 uid with he | ⟨lvl, he⟩
  · rw [he]; exact h
  · rw [he]
    unfold impInv at h ⊢
    exact all_updateFirstImpact _ _ _ _ h (fun i d hd => hd)

theorem impInv_log_visit_apply (s : Store) (p : VisitCreate) (b : Business)
    (h : impInv s = true) : impInv (log_visit_apply s p b).2 = true := by
  apply impInv_terra_finalize
  apply impInv_impact_upsert_inc
  exact h

theorem impInv_get_impact (s : Store) (uid : String) (un : Option String)
    (s2 : Store) (h : impInv s = true)
    (h2 : (get_impact (some s) uid un).2 = some s2) : impInv s2 = true := by
  simp only [get_impact] at h2
  rcases hf : s.impacts.find? (impMatch uid) with _ | q
  · simp only [hf] at h2
    injection h2 with h3
    rw [← h3]
    unfold impInv at h ⊢
    simp only [create_impact, List.all_append, Bool.and_eq_true]
    refine ⟨h, ?_⟩
    simp [impactOk]
  · simp only [hf] at h2
    injection h2 with h3
    rw [← h3]
    exact h

theorem impInv_runOp (s : Store) (o : Op) (h : impInv s = true) :
    impInv (runOp s o) = true := by
  cases o with
  | logVisit p =>
    simp only [runOp]
    rcases hfull : log_visit (some s) p with ⟨r, db2⟩
    rcases log_visit_some_inv s p r db2 hfull with
      ⟨_, h2⟩ | ⟨_, h2⟩ | ⟨oidv, i, b, _, _, hrest⟩
    · rw [h2]; exact h
    · rw [h2]; exact h
    · rcases hrest with ⟨d, s3, happ, _, hdb⟩ | ⟨c, msg, s3, happ, _, hdb⟩
      · rw [hdb]
        have h4 := impInv_log_visit_apply s p b h
        rw [happ] at h4
        exact h4
      · rw [hdb]
        have h4 := impInv_log_visit_apply s p b h
        rw [happ] at h4
        exact h4
  | getImpact u n =>
    simp only [runOp]
    rcases hg : (get_impact (some s) u n).2 with _ | s2
    · exact h
    · exact impInv_get_impact s u n s2 h hg

/-! ## Claim theorems -/

/-- C1: from a state with no Impact record for user U and a store containing
business B, three successive logVisit(U, "alice", B) calls produce an Impact
record for U with visits=3, eco_points=30, community_impact=3, terra_level=1
and username "alice", and the third call returns exactly that record. -/
theorem C1_three_sequential_visits :
    demoStore.impacts = [] ∧
    (log_visit (log_visit (log_visit (some demoStore) demoVisit).2 demoVisit).2
        demoVisit).1
      = .ok ⟨impactDump
          { user_id := "U", username := "alice", visits := 3, eco_points := 30,
            community_impact := 3, terra_level := 1 }⟩ ∧
    ((log_visit (log_visit (log_visit (some demoStore) demoVisit).2 demoVisit).2
        demoVisit).2.map
      (fun s => (s.impacts.find? (impMatch "U")).map Prod.snd))
      = some (some
          { user_id := "U", username := "alice", visits := 3, eco_points := 30,
            community_impact := 3, terra_level := 1 }) := by
  decide

/-- C2: the tier derivation used by logVisit is total on the integers, matches
the tier table on non-negative counts (0 below 3 visits, 1 up to 9, 2 up to
19, 3 from 20 on), is monotone, and after every completed logVisit the
persisted terra_level equals deriveLevel of the persisted visits value. -/
theorem C2_deriveLevel_tier_table :
    (∀ v : Int, 0 ≤ v →
      ((v < 3 → deriveLevel v = 0) ∧ (3 ≤ v → v < 10 → deriveLevel v = 1) ∧
       (10 ≤ v → v < 20 → deriveLevel v = 2) ∧ (20 ≤ v → deriveLevel v = 3))) ∧
    (∀ v w : Int, 0 ≤ v → v ≤ w → deriveLevel v ≤ deriveLevel w) ∧
    (∀ (s : Store) (p : VisitCreate) (env : ImpactEnvelope) (s2 : Store),
      log_visit (some s) p = (.ok env, some s2) →
      ∃ i m, s2.impacts.find? (impMatch p.user_id) = some (i, m) ∧
        m.terra_level = deriveLevel m.visits) := by
  refine ⟨?_, ?_, ?_⟩
  · intro v hv
    unfold deriveLevel
    refine ⟨?_, ?_, ?_, ?_⟩ <;> intros <;> split_ifs <;> omega
  · intro v w hv hvw
    unfold deriveLevel
    split_ifs <;> omega
  · intro s p env s2 h
    rcases log_visit_ok_inv s p env s2 h with ⟨oidv, i, b, hoid, hb, happ⟩
    rcases hf : s.impacts.find? (impMatch p.user_id) with _ | ⟨j, m⟩
    · rcases log_visit_apply_new s p b hf with ⟨sfin, i2, he, hfind⟩
      rw [he] at happ
      injection happ with h1 h2
      refine ⟨i2,
        { user_id := p.user_id, username := p.username, visits := 1,
          eco_points := 10, community_impact := 1, terra_level := 0 }, ?_, ?_⟩
      · rw [← h2]; exact hfind
      · show (0 : Int) = deriveLevel 1
        decide
    · rcases log_visit_apply_found s p b j m hf with ⟨sfin, he, hfind⟩
      rw [he] at happ
      injection happ with h1 h2
      refine ⟨j,
        { user_id := m.user_id, username := m.username, visits := m.visits + 1,
          eco_points := m.eco_points + 10,
          community_impact := m.community_impact + 1,
          terra_level := deriveLevel (m.visits + 1) }, ?_, ?_⟩
      · rw [← h2]; exact hfind
      · rfl

/-- Witness for C2, discharging the logVisit hypothesis at a concrete run. -/
theorem C2_deriveLevel_tier_table_witness :
    ∃ i m, s1demo.impacts.find? (impMatch demoVisit.user_id) = some (i, m) ∧
      m.terra_level = deriveLevel m.visits :=
  C2_deriveLevel_tier_table.2.2 demoStore demoVisit
    ⟨impactDump
      { user_id := "U", username := "alice", visits := 1,
        eco_points := 10, community_impact := 1, terra_level := 0 }⟩
    s1demo (by decide)

/-- C3: a logVisit whose well-formed business_id does not resolve to a stored
Business fails with HTTP 404 and leaves the store completely unchanged. -/
theorem C3_unknown_business_404 (s : Store) (p : VisitCreate) (oidv : Nat)
    (hoid : to_obj_id p.business_id = some oidv)
    (hb : s.businesses.find? (fun q => q.1 == oidv) = none) :
    log_visit (some s) p = (.err 404 "Business not found", some s) := by
  simp only [log_visit, hoid, hb]

/-- Witness for C3: business id 7 is absent from the demo store. -/
theorem C3_unknown_business_404_witness :
    log_visit (some demoStore)
      { user_id := "U", username := "alice", business_id := "7" }
      = (.err 404 "Business not found", some demoStore) :=
  C3_unknown_business_404 demoStore
    { user_id := "U", username := "alice", business_id := "7" } 7
    (by decide) (by decide)

/-- C4 counterexample: with the store unavailable, getImpact does not surface
HTTP 500 as the claim requires; it returns a fabricated zero-count Impact
snapshot with HTTP 200. -/
theorem C4_counterexample :
    get_impact none "u1" (some "alice")
      = (.ok (impactDump
          { user_id := "u1", username := "alice", visits := 0, eco_points := 0,
            community_impact := 0, terra_level := 0 }), none) := by
  decide

/-- C4 amended: with the store unavailable, logVisit surfaces HTTP 500, but
getImpact instead returns a fabricated zero-count snapshot (without
persisting anything), and directory listing degrades to an empty result. -/
theorem C4_amended_unavailable_behaviour :
    (∀ p : VisitCreate,
      log_visit none p = (.err 500 "Database not available", none)) ∧
    (∀ (uid : String) (un : Option String),
      get_impact none uid un
        = (.ok (impactDump
            { user_id := uid, username := orDefault un "Guest", visits := 0,
              eco_points := 0, community_impact := 0, terra_level := 0 }),
           none)) ∧
    (∀ se ca : Option String, list_businesses none se ca = []) :=
  ⟨fun _ => rfl, fun _ _ => rfl, fun _ _ => rfl⟩

/-- C5: when an Impact record already exists for the user, logVisit leaves
its username unchanged while incrementing the counters by one visit, and in
the concrete alice-then-bob scenario the final username is still alice. -/
theorem C5_username_first_write_wins :
    (∀ (s : Store) (p : VisitCreate) (i : Nat) (m : Impact)
       (env : ImpactEnvelope) (s2 : Store),
      s.impacts.find? (impMatch p.user_id) = some (i, m) →
      log_visit (some s) p = (.ok env, some s2) →
      s2.impacts.find? (impMatch p.user_id) =
        some (i,
          { user_id := m.user_id, username := m.username,
            visits := m.visits + 1, eco_points := m.eco_points + 10,
            community_impact := m.community_impact + 1,
            terra_level := deriveLevel (m.visits + 1) })) ∧
    ((log_visit (log_visit (some demoStore) demoVisit).2 demoVisitBob).2.map
        (fun s => (s.impacts.find? (impMatch "U")).map (fun q => q.2.username)))
      = some (some "alice") := by
  constructor
  · intro s p i m env s2 hf h
    rcases log_visit_ok_inv s p env s2 h with ⟨oidv, j, b, hoid, hb, happ⟩
    rcases log_visit_apply_found s p b i m hf with ⟨sfin, he, hfind⟩
    rw [he] at happ
    injection happ with h1 h2
    rw [← h2]
    exact hfind
  · decide

/-- Witness for C5, discharging its hypotheses on the store after the alice
visit, with the bob payload. -/
theorem C5_username_first_write_wins_witness :
    s2demo.impacts.find? (impMatch demoVisitBob.user_id)
      = some (2,
        { user_id := "U", username := "alice", visits := 2, eco_points := 20,
          community_impact := 2, terra_level := deriveLevel 2 }) :=
  C5_username_first_write_wins.1 s1demo demoVisitBob 2
    { user_id := "U", username := "alice", visits := 1, eco_points := 10,
      community_impact := 1, terra_level := 0 }
    ⟨impactDump
      { user_id := "U", username := "alice", visits := 2,
        eco_points := 20, community_impact := 2,
        terra_level := deriveLevel 2 }⟩
    s2demo (by decide) (by decide)

/-- C6: getImpact on a user with no Impact record returns a zero-valued
snapshot (username from the call, defaulting to Guest) and persists it
without incrementing any counter, and a second getImpact for the same user
returns that same stored record with the store unchanged (no duplicate). -/
theorem C6_get_impact_read_or_init (s : Store) (uid : String)
    (un un2 : Option String)
    (h : s.impacts.find? (impMatch uid) = none) :
    get_impact (some s) uid un
      = (.ok (impactDump
          { user_id := uid, username := orDefault un "Guest", visits := 0,
            eco_points := 0, community_impact := 0, terra_level := 0 }),
         some { s with
           impacts := s.impacts ++
             [(s.nextId,
               { user_id := uid, username := orDefault un "Guest", visits := 0,
                 eco_points := 0, community_impact := 0, terra_level := 0 })],
           nextId := s.nextId + 1 }) ∧
    get_impact
      (some { s with
        impacts := s.impacts ++
          [(s.nextId,
            { user_id := uid, username := orDefault un "Guest", visits := 0,
              eco_points := 0, community_impact := 0, terra_level := 0 })],
        nextId := s.nextId + 1 }) uid un2
      = (.ok (impactDump
          { user_id := uid, username := orDefault un "Guest", visits := 0,
            eco_points := 0, community_impact := 0, terra_level := 0 }),
         some { s with
           impacts := s.impacts ++
             [(s.nextId,
               { user_id := uid, username := orDefault un "Guest", visits := 0,
                 eco_points := 0, community_impact := 0, terra_level := 0 })],
           nextId := s.nextId + 1 }) := by
  have hfind2 : (s.impacts ++
      [(s.nextId,
        ({ user_id := uid, username := orDefault un "Guest", visits := 0,
           eco_points := 0, community_impact := 0,
           terra_level := 0 } : Impact))]).find? (impMatch uid)
      = some (s.nextId,
          { user_id := uid, username := orDefault un "Guest", visits := 0,
            eco_points := 0, community_impact := 0, terra_level := 0 }) := by
    rw [find_append_of_none _ _ _ h]
    exact List.find?_cons_of_pos _ (by simp [impMatch])
  constructor
  · simp only [get_impact, h]
    rfl
  · simp only [get_impact]
    rw [hfind2]

/-- Witness for C6 for a fresh user against the demo store. -/
theorem C6_get_impact_read_or_init_witness :
    get_impact (some demoStore) "V" (some "carol")
      = (.ok (impactDump
          { user_id := "V", username := "carol", visits := 0, eco_points := 0,
            community_impact := 0, terra_level := 0 }),
         some
           { businesses := [(0, demoBusiness)], visits := [],
             impacts := [(1,
               { user_id := "V", username := "carol", visits := 0,
                 eco_points := 0, community_impact := 0, terra_level := 0 })],
             nextId := 2 }) ∧
    get_impact
      (some
        { businesses := [(0, demoBusiness)], visits := [],
          impacts := [(1,
            { user_id := "V", username := "carol", visits := 0,
              eco_points := 0, community_impact := 0, terra_level := 0 })],
          nextId := 2 }) "V" none
      = (.ok (impactDump
          { user_id := "V", username := "carol", visits := 0, eco_points := 0,
            community_impact := 0, terra_level := 0 }),
         some
           { businesses := [(0, demoBusiness)], visits := [],
             impacts := [(1,
               { user_id := "V", username := "carol", visits := 0,
                 eco_points := 0, community_impact := 0, terra_level := 0 })],
             nextId := 2 }) :=
  C6_get_impact_read_or_init demoStore "V" (some "carol") none (by decide)

/-- C7 counterexample: a registration whose checklist has six true entries
computes score 108, fails the 0-100 range validation of the Business schema,
surfaces HTTP 500 and persists nothing, so the claimed formula score is not
produced for every non-empty checklist. -/
theorem C7_counterexample :
    register_business emptyStore sixTrueChecks
      = (.err 500 "Internal Server Error", emptyStore) := by
  decide

/-- C7 amended: for every registerBusiness call supplying a non-empty
eco_checks list with at most five true entries (so the formula stays inside
the 0-100 schema range), the persisted and returned Business has
eco_score = 60 + 8 * (number of true entries), and the response carries the
assigned id; four true entries yield 92. -/
theorem C7_amended_eco_score_formula (s : Store) (p : BusinessCreate)
    (hwf : s.WF = true) (hne : p.eco_checks ≠ [])
    (hc : countTrue p.eco_checks ≤ 5) :
    ∃ (d : Doc) (s2 : Store) (b : Business),
      register_business s p = (.ok d, s2) ∧
      d.lookup "eco_score"
        = some (.int (60 + 8 * (countTrue p.eco_checks : Int))) ∧
      d.lookup "id" = some (.str (toString s.nextId)) ∧
      s2.businesses = s.businesses ++ [(s.nextId, b)] ∧
      b.eco_score = 60 + 8 * (countTrue p.eco_checks : Int) := by
  have hwfb : s.businesses.all (fun q => decide (q.1 < s.nextId)) = true := by
    simp only [Store.WF, Bool.and_eq_true] at hwf
    exact hwf.1.1
  have hempty : p.eco_checks.isEmpty = false := by
    cases hcc : p.eco_checks with
    | nil => exact absurd hcc hne
    | cons a t => rfl
  have hscore : (regData p).eco_score
      = 60 + 8 * (countTrue p.eco_checks : Int) := by
    simp only [regData, hempty]
  have hval : businessValid (regData p) = true := by
    simp only [businessValid, hscore, Bool.and_eq_true, decide_eq_true_eq]
    constructor <;> omega
  have heq := register_business_eq s p hval (find_none_of_wf_businesses s hwfb)
  refine ⟨business_doc_to_response (businessDocOf s.nextId (regData p)),
    { s with businesses := s.businesses ++ [(s.nextId, regData p)],
             nextId := s.nextId + 1 },
    regData p, heq, ?_, business_response_id s.nextId (regData p), rfl, hscore⟩
  rw [business_response_eco_score s.nextId (regData p), hscore]

/-- Witness for C7 amended at the four-true demo payload. -/
theorem C7_amended_eco_score_formula_witness :
    ∃ (d : Doc) (s2 : Store) (b : Business),
      register_business demoStore demoBusinessCreate = (.ok d, s2) ∧
      d.lookup "eco_score"
        = some (.int (60 + 8 * (countTrue demoBusinessCreate.eco_checks : Int))) ∧
      d.lookup "id" = some (.str (toString demoStore.nextId)) ∧
      s2.businesses = demoStore.businesses
        ++ [(demoStore.nextId, b)] ∧
      b.eco_score = 60 + 8 * (countTrue demoBusinessCreate.eco_checks : Int) :=
  C7_amended_eco_score_formula demoStore demoBusinessCreate
    (by decide) (by decide) (by decide)

/-- C8 counterexample: the Impact document returned by a successful logVisit
carries no id field; the native key is removed without substituting its
string form. -/
theorem C8_counterexample :
    (log_visit (some demoStore) demoVisit).1
      = .ok ⟨impactDump
          { user_id := "U", username := "alice", visits := 1, eco_points := 10,
            community_impact := 1, terra_level := 0 }⟩ ∧
    (impactDump
      { user_id := "U", username := "alice", visits := 1, eco_points := 10,
        community_impact := 1, terra_level := 0 }).lookup "id" = none := by
  decide

/-- C8 amended: Business and Visit responses carry an id field holding the
string form of the store key in place of the native key, while the Impact
documents returned by getImpact and logVisit carry neither the native key nor
an id field. -/
theorem C8_amended_id_fields :
    (∀ (i : Nat) (b : Business),
      (business_doc_to_response (businessDocOf i b)).lookup "id"
          = some (.str (toString i)) ∧
      (business_doc_to_response (businessDocOf i b)).lookup "_id" = none) ∧
    (∀ (db : Option Store) (uid : String) (d : Doc),
      d ∈ get_user_visits db uid →
      ∃ i : Nat, d.lookup "id" = some (.str (toString i)) ∧
        d.lookup "_id" = none) ∧
    (∀ (db : Option Store) (uid : String) (un : Option String) (r : Doc)
       (db2 : Option Store),
      get_impact db uid un = (.ok r, db2) →
      r.lookup "id" = none ∧ r.lookup "_id" = none) ∧
    (∀ (db : Option Store) (p : VisitCreate) (env : ImpactEnvelope)
       (db2 : Option Store),
      log_visit db p = (.ok env, db2) →
      env.impact.lookup "id" = none ∧ env.impact.lookup "_id" = none) := by
  refine ⟨?_, ?_, ?_, ?_⟩
  · intro i b
    exact ⟨business_response_id i b, business_response_no_native_key i b⟩
  · intro db uid d hd
    cases db with
    | none => simp [get_user_visits] at hd
    | some s =>
      simp only [get_user_visits, List.mem_map] at hd
      rcases hd with ⟨q, hq, hmap⟩
      exact ⟨q.1, by rw [← hmap]; exact visit_response_id q.1 q.2,
             by rw [← hmap]; exact visit_response_no_native_key q.1 q.2⟩
  · intro db uid un r db2 hr
    rcases get_impact_ok_shape db uid un r db2 hr with ⟨m, hm⟩
    rw [hm]
    exact ⟨impactDump_no_id m, impactDump_no_native_key m⟩
  · intro db p env db2 hr
    cases db with
    | none => exact absurd hr (by simp [log_visit])
    | some s =>
      rcases log_visit_some_inv s p (.ok env) db2 hr with
        ⟨h1, _⟩ | ⟨h1, _⟩ | ⟨oidv, i, b, _, _, hrest⟩
      · exact absurd h1 (by simp)
      · exact absurd h1 (by simp)
      rcases hrest with ⟨d, s3, happ, hok, _⟩ | ⟨c, msg, s3, _, hok, _⟩
      · rcases log_visit_apply_ok_shape s p b d s3 happ with ⟨m, hm⟩
        injection hok with hok1
        rw [hok1, hm]
        exact ⟨impactDump_no_id m, impactDump_no_native_key m⟩
      · exact absurd hok (by simp)

/-- Witness for C8 amended, instantiating its getImpact clause at a concrete
call. -/
theorem C8_amended_id_fields_witness :
    (impactDump
      { user_id := "u1", username := "alice", visits := 0, eco_points := 0,
        community_impact := 0, terra_level := 0 }).lookup "id" = none ∧
    (impactDump
      { user_id := "u1", username := "alice", visits := 0, eco_points := 0,
        community_impact := 0, terra_level := 0 }).lookup "_id" = none :=
  C8_amended_id_fields.2.2.1 none "u1" (some "alice")
    (impactDump
      { user_id := "u1", username := "alice", visits := 0, eco_points := 0,
        community_impact := 0, terra_level := 0 }) none (by decide)

/-- C9: starting from any store whose Impact records satisfy
community_impact = visits (in particular one with no Impact records), every
sequence of logVisit and getImpact operations preserves the invariant: the
two counters are created equal and incremented together. -/
theorem C9_community_impact_equals_visits (ops : List Op) (s : Store)
    (h : impInv s = true) : impInv (List.foldl runOp s ops) = true := by
  induction ops generalizing s with
  | nil => exact h
  | cons o t ih => exact ih (runOp s o) (impInv_runOp s o h)

/-- Witness for C9 on a three-operation trace from the demo store. -/
theorem C9_community_impact_equals_visits_witness :
    impInv (List.foldl runOp demoStore
      [Op.logVisit demoVisit, Op.getImpact "V" none,
       Op.logVisit demoVisitBob]) = true :=
  C9_community_impact_equals_visits
    [Op.logVisit demoVisit, Op.getImpact "V" none, Op.logVisit demoVisitBob]
    demoStore (by decide)

/-- C10: the registerBusiness request schema has no eco_score field (the
embedding's BusinessCreate carries exactly the source's request fields, so
the stored score is a function of eco_checks alone), and with an empty
checklist the persisted Business carries the schema default eco_score 80. -/
theorem C10_default_eco_score (s : Store) (p : BusinessCreate)
    (hwf : s.WF = true) (he : p.eco_checks = []) :
    (∀ q : BusinessCreate, q.eco_checks = p.eco_checks →
      (regData q).eco_score = (regData p).eco_score) ∧
    ∃ (d : Doc) (s2 : Store),
      register_business s p = (.ok d, s2) ∧
      d.lookup "eco_score" = some (.int 80) ∧
      s2.businesses = s.businesses ++ [(s.nextId, regData p)] ∧
      (regData p).eco_score = 80 := by
  have hwfb : s.businesses.all (fun q => decide (q.1 < s.nextId)) = true := by
    simp only [Store.WF, Bool.and_eq_true] at hwf
    exact hwf.1.1
  have hscore : (regData p).eco_score = 80 := by
    simp only [regData, he, List.isEmpty_nil]
  have hval : businessValid (regData p) = true := by
    simp only [businessValid, hscore, Bool.and_eq_true, decide_eq_true_eq]
    constructor <;> omega
  refine ⟨fun q hq => by simp only [regData, hq],
    business_doc_to_response (businessDocOf s.nextId (regData p)),
    { s with businesses := s.businesses ++ [(s.nextId, regData p)],
             nextId := s.nextId + 1 },
    register_business_eq s p hval (find_none_of_wf_businesses s hwfb),
    ?_, rfl, hscore⟩
  rw [business_response_eco_score s.nextId (regData p), hscore]

/-- Witness for C10 at the empty-checklist payload against the demo store. -/
theorem C10_default_eco_score_witness :
    (∀ q : BusinessCreate, q.eco_checks = emptyChecksCreate.eco_checks →
      (regData q).eco_score = (regData emptyChecksCreate).eco_score) ∧
    ∃ (d : Doc) (s2 : Store),
      register_business demoStore emptyChecksCreate = (.ok d, s2) ∧
      d.lookup "eco_score" = some (.int 80) ∧
      s2.businesses = demoStore.businesses
        ++ [(demoStore.nextId, regData emptyChecksCreate)] ∧
      (regData emptyChecksCreate).eco_score = 80 :=
  C10_default_eco_score demoStore emptyChecksCreate (by decide) (by decide)
